import Mathlib

/-!
Shallow embedding of the UT1300 BLE battery monitor frame decoder
(ut1300.py, class UT1300).

Bytes are modelled as natural numbers, chunks and the accumulation buffer
as lists of naturals.  Values that the Python code computes with float
division are modelled as rationals; values computed as Python ints that
may go negative (temperatures, byte minus 40) are modelled as integers.
A Python IndexError raised by an out-of-range bytearray index is modelled
by `Option`: a parse routine returns `none` exactly when the Python code
would raise, and `some (s, out)` when it returns normally with new object
state `s` and return value `out` (`out = none` models Python `None`).
-/

namespace Bmv

/-- The nested enum UT1300.State of the source. -/
inductive UT1300.State where
  | CHARGING
  | DISCHARGING
  | UNKNOWN
deriving DecidableEq, Repr

/-- The mutable fields of a UT1300 instance (ut1300.py, `__init__`).
The `name` and `device` fields of the Python object play no role in the
decoder and are omitted; the `successes` dict is flattened into its three
keys. -/
structure UT1300 where
  cell1_voltage : ℚ
  cell2_voltage : ℚ
  cell3_voltage : ℚ
  cell4_voltage : ℚ
  cycle_count : ℕ
  state_of_charge : ℕ
  full_capacity : ℚ
  remaining_capacity : ℚ
  battery_state : UT1300.State
  current : ℚ
  temperature1 : ℤ
  temperature2 : ℤ
  mosfet_temperature : ℤ
  ambient_temperature : ℤ
  discharge_time_left : ℚ
  charge_time_left : ℚ
  total_voltage : ℚ
  max_cell_voltage : ℚ
  min_cell_voltage : ℚ
  accumulated_data : List ℕ
  successes_cell_voltages : ℕ
  successes_battery_pack_info : ℕ
  successes_current_and_temperature : ℕ
deriving DecidableEq, Repr

/-- The initial state set up by `UT1300.__init__`. -/
def UT1300.init : UT1300 where
  cell1_voltage := 0
  cell2_voltage := 0
  cell3_voltage := 0
  cell4_voltage := 0
  cycle_count := 0
  state_of_charge := 0
  full_capacity := 0
  remaining_capacity := 0
  battery_state := .UNKNOWN
  current := 0
  temperature1 := 0
  temperature2 := 0
  mosfet_temperature := 0
  ambient_temperature := 0
  discharge_time_left := 0
  charge_time_left := 0
  total_voltage := 0
  max_cell_voltage := 0
  min_cell_voltage := 0
  accumulated_data := []
  successes_cell_voltages := 0
  successes_battery_pack_info := 0
  successes_current_and_temperature := 0

/-- A decoded record: the dict returned by one of the three parse
routines. -/
inductive Record where
  | cellVoltages (cell1_voltage cell2_voltage cell3_voltage cell4_voltage : ℚ)
  | currentAndTemperature (current : ℚ)
      (temperature1 temperature2 mosfet_temperature ambient_temperature : ℤ)
  | batteryPackInfo (cycle_count state_of_charge : ℕ)
      (full_capacity remaining_capacity discharge_time_left charge_time_left
       total_voltage max_cell_voltage min_cell_voltage : ℚ)
deriving DecidableEq, Repr

def Record.isCellVoltages : Record → Bool
  | .cellVoltages _ _ _ _ => true
  | _ => false

def Record.isCurrentAndTemperature : Record → Bool
  | .currentAndTemperature _ _ _ _ _ => true
  | _ => false

def Record.isBatteryPackInfo : Record → Bool
  | .batteryPackInfo _ _ _ _ _ _ _ _ _ => true
  | _ => false

/-- `_is_start_of_message` (ut1300.py lines 71-75):
`len(data) > 2 and data[0] == 0xea and data[1] == 0xd1`.
The `getD` defaults are never reached because `&&` short-circuits exactly
as the Python `and` does. -/
def _is_start_of_message (data : List ℕ) : Bool :=
  decide (data.length > 2) && (data.getD 0 0 == 0xea) && (data.getD 1 0 == 0xd1)

/-- `_is_message_min_length`: `len(self.accumulated_data) >= 8`. -/
def _is_message_min_length (buf : List ℕ) : Bool :=
  decide (buf.length ≥ 8)

/-- `_is_complete_message`: `self.accumulated_data[-1] == 0xf5`.
The Python negative index reads the last byte; it is only evaluated on a
buffer of length at least 8, where `getLastD` agrees with it. -/
def _is_complete_message (buf : List ℕ) : Bool :=
  buf.getLastD 0 == 0xf5

/-- `_is_correct_length`: `self.accumulated_data[3] + 4 == len(self.accumulated_data)`. -/
def _is_correct_length (buf : List ℕ) : Bool :=
  buf.getD 3 0 + 4 == buf.length

/-- `_is_valid_message` (ut1300.py lines 77-83).  The Python source tests
`self._is_message_min_length() and self._is_complete_message() and
self._is_correct_length` — the third conjunct is a bound-method reference
with no call parentheses, hence a truthy object: it contributes no
condition.  The embedding reproduces that behaviour faithfully. -/
def _is_valid_message (buf : List ℕ) : Bool :=
  _is_message_min_length buf && _is_complete_message buf && true

/-- Big-endian 16-bit read `(buf[i] << 8) + buf[i+1]` as a total function,
used only in theorem statements (the parse routines below read through
`get?` so that an out-of-range index is observable). -/
def be16 (buf : List ℕ) (i : ℕ) : ℕ :=
  (buf.getD i 0) <<< 8 + buf.getD (i + 1) 0

/-- The Python expression `(buf[i] << 8) + buf[j]`, raising IndexError
(modelled as `none`) when either index is out of range. -/
def read_be16 (b : List ℕ) (i j : ℕ) : Option ℕ := do
  let hi ← b.get? i
  let lo ← b.get? j
  return (hi <<< 8) + lo

/-- `_parse_cell_voltages` (ut1300.py lines 106-124).  Reads bytes
9..16 of the buffer, stores the four voltages, bumps the cell_voltages
success counter, clears the buffer, and returns the record. -/
def _parse_cell_voltages (s : UT1300) : Option (UT1300 × Option Record) := do
  let b := s.accumulated_data
  let w9 ← read_be16 b 9 10
  let w11 ← read_be16 b 11 12
  let w13 ← read_be16 b 13 14
  let w15 ← read_be16 b 15 16
  let v1 : ℚ := (w9 : ℕ) / 1000
  let v2 : ℚ := (w11 : ℕ) / 1000
  let v3 : ℚ := (w13 : ℕ) / 1000
  let v4 : ℚ := (w15 : ℕ) / 1000
  return ({ s with
      cell1_voltage := v1
      cell2_voltage := v2
      cell3_voltage := v3
      cell4_voltage := v4
      successes_cell_voltages := s.successes_cell_voltages + 1
      accumulated_data := [] },
    some (.cellVoltages v1 v2 v3 v4))

/-- `_parse_current_and_temperature` (ut1300.py lines 126-152).  Reads the
current from bytes (7,8), the state byte 6 (0x31 discharging and the
current is negated, 0x32 charging, anything else unknown), and the four
temperature bytes 14..17, each minus 40. -/
def _parse_current_and_temperature (s : UT1300) : Option (UT1300 × Option Record) := do
  let b := s.accumulated_data
  let w7 ← read_be16 b 7 8
  let b6 ← b.get? 6
  let b14 ← b.get? 14
  let b15 ← b.get? 15
  let b16 ← b.get? 16
  let b17 ← b.get? 17
  let cur0 : ℚ := (w7 : ℕ) / 100
  let st : UT1300.State :=
    if b6 = 0x31 then .DISCHARGING else if b6 = 0x32 then .CHARGING else .UNKNOWN
  let cur : ℚ := if b6 = 0x31 then -cur0 else cur0
  let t1 : ℤ := (b14 : ℤ) - 40
  let t2 : ℤ := (b15 : ℤ) - 40
  let tm : ℤ := (b16 : ℤ) - 40
  let ta : ℤ := (b17 : ℤ) - 40
  return ({ s with
      current := cur
      battery_state := st
      temperature1 := t1
      temperature2 := t2
      mosfet_temperature := tm
      ambient_temperature := ta
      successes_current_and_temperature := s.successes_current_and_temperature + 1
      accumulated_data := [] },
    some (.currentAndTemperature cur t1 t2 tm ta))

/-- `_parse_battery_pack_info` (ut1300.py lines 154-185). -/
def _parse_battery_pack_info (s : UT1300) : Option (UT1300 × Option Record) := do
  let b := s.accumulated_data
  let b6 ← b.get? 6
  let b7 ← b.get? 7
  let w21 ← read_be16 b 21 22
  let w27 ← read_be16 b 27 28
  let w30 ← read_be16 b 30 31
  let w33 ← read_be16 b 33 34
  let w47 ← read_be16 b 47 48
  let w49 ← read_be16 b 49 50
  let w51 ← read_be16 b 51 52
  let fullCap : ℚ := ((0x01 <<< 16) + w21 : ℕ) / 1000
  let remCap : ℚ := (w27 : ℕ) / 1000
  let dtl : ℚ := (w30 : ℕ)
  let ctl : ℚ := (w33 : ℕ)
  let totV : ℚ := (w47 : ℕ) / 100
  let maxV : ℚ := (w49 : ℕ) / 1000
  let minV : ℚ := (w51 : ℕ) / 1000
  return ({ s with
      cycle_count := b6
      state_of_charge := b7
      full_capacity := fullCap
      remaining_capacity := remCap
      discharge_time_left := dtl
      charge_time_left := ctl
      total_voltage := totV
      max_cell_voltage := maxV
      min_cell_voltage := minV
      successes_battery_pack_info := s.successes_battery_pack_info + 1
      accumulated_data := [] },
    some (.batteryPackInfo b6 b7 fullCap remCap dtl ctl totV maxV minV))

/-- `_parse_message` (ut1300.py lines 98-104): dispatch on the
discriminant byte `accumulated_data[5]`; an unrecognized discriminant
falls through and returns Python `None` with the state untouched. -/
def _parse_message (s : UT1300) : Option (UT1300 × Option Record) := do
  let b5 ← s.accumulated_data.get? 5
  if b5 = 0x02 then _parse_cell_voltages s
  else if b5 = 0x03 then _parse_current_and_temperature s
  else if b5 = 0x04 then _parse_battery_pack_info s
  else return (s, none)

/-- The accumulation phase of `ingest_data` (ut1300.py lines 52-55):
a start-of-message chunk replaces the buffer, any chunk extends a
non-empty buffer, and a non-start chunk on an empty buffer is dropped. -/
def ingest_buffer (buf data : List ℕ) : List ℕ :=
  if _is_start_of_message data then data
  else if !buf.isEmpty then buf ++ data
  else buf

/-- The validation-and-parse phase of `ingest_data` (ut1300.py lines
57-60): return Python `None` when the buffer is not a valid message,
otherwise parse it. -/
def _check_and_parse (s : UT1300) : Option (UT1300 × Option Record) :=
  if _is_valid_message s.accumulated_data then _parse_message s
  else some (s, none)

/-- `ingest_data` (ut1300.py lines 51-60). -/
def ingest_data (s : UT1300) (data : List ℕ) : Option (UT1300 × Option Record) :=
  _check_and_parse { s with accumulated_data := ingest_buffer s.accumulated_data data }

/-- Deliver a list of chunks in order; the result is the final state
paired with the return value of the LAST `ingest_data` call (`none` from
the whole run models a raised IndexError at some step). -/
def run_chunks (s : UT1300) : List (List ℕ) → Option (UT1300 × Option Record)
  | [] => some (s, none)
  | [c] => ingest_data s c
  | c :: c2 :: cs =>
      (ingest_data s c).bind fun p => run_chunks p.1 (c2 :: cs)

/-- Deliver a list of chunks in order, collecting every record produced
along the way. -/
def run_trace (s : UT1300) : List (List ℕ) → Option (UT1300 × List Record)
  | [] => some (s, [])
  | c :: cs =>
      (ingest_data s c).bind fun p =>
        (run_trace p.1 cs).map fun q => (q.1, p.2.toList ++ q.2)

/-- The buffers that the accumulator holds at the chunk boundaries
strictly before the last chunk, assuming accumulation is never
interrupted: the concatenations of the first k+1 chunks. -/
def boundary_bufs (chunks : List (List ℕ)) : List (List ℕ) :=
  (List.range (chunks.length - 1)).map fun k => (chunks.take (k + 1)).flatten

example : _is_start_of_message [0xea, 0xd1, 0x01] = true := by decide
example : _is_start_of_message [0xea, 0xd1] = false := by decide

lemma getElem?_eq_some_getD (l : List ℕ) (i : ℕ) (h : i < l.length) :
    l[i]? = some (l.getD i 0) := by
  rw [List.getElem?_eq_getElem h, List.getD_eq_getElem l 0 h]

lemma read_be16_eval (b : List ℕ) (i j : ℕ) (hi : i < b.length) (hj : j < b.length) :
    read_be16 b i j = some ((b.getD i 0) <<< 8 + b.getD j 0) := by
  simp only [read_be16, Option.bind_eq_bind, Option.pure_def, List.get?_eq_getElem?,
    getElem?_eq_some_getD b i hi, getElem?_eq_some_getD b j hj, Option.some_bind]

lemma read_be16_pair (b : List ℕ) (i : ℕ) (h : i + 1 < b.length) :
    read_be16 b i (i + 1) = some (be16 b i) := by
  rw [read_be16_eval b i (i + 1) (by omega) h]; rfl

lemma read_be16_some (b : List ℕ) {i j w : ℕ} (h : read_be16 b i j = some w) :
    i < b.length ∧ j < b.length := by
  simp only [read_be16, Option.bind_eq_bind, Option.bind_eq_some] at h
  obtain ⟨hi, h1, lo, h2, -⟩ := h
  rw [List.get?_eq_getElem?, List.getElem?_eq_some] at h1 h2
  exact ⟨h1.1, h2.1⟩

lemma parse_cell_voltages_eval (s : UT1300) (hlen : 16 < s.accumulated_data.length) :
    _parse_cell_voltages s = some
      ({ s with
          cell1_voltage := (be16 s.accumulated_data 9 : ℚ) / 1000
          cell2_voltage := (be16 s.accumulated_data 11 : ℚ) / 1000
          cell3_voltage := (be16 s.accumulated_data 13 : ℚ) / 1000
          cell4_voltage := (be16 s.accumulated_data 15 : ℚ) / 1000
          successes_cell_voltages := s.successes_cell_voltages + 1
          accumulated_data := [] },
        some (.cellVoltages
          ((be16 s.accumulated_data 9 : ℚ) / 1000)
          ((be16 s.accumulated_data 11 : ℚ) / 1000)
          ((be16 s.accumulated_data 13 : ℚ) / 1000)
          ((be16 s.accumulated_data 15 : ℚ) / 1000))) := by
  have h9 := read_be16_pair s.accumulated_data 9 (by omega)
  have h11 := read_be16_pair s.accumulated_data 11 (by omega)
  have h13 := read_be16_pair s.accumulated_data 13 (by omega)
  have h15 := read_be16_pair s.accumulated_data 15 (by omega)
  simp only [_parse_cell_voltages, Option.bind_eq_bind, Option.pure_def,
    h9, h11, h13, h15, Option.some_bind]

lemma parse_current_and_temperature_eval (s : UT1300)
    (hlen : 17 < s.accumulated_data.length) :
    _parse_current_and_temperature s = some
      ({ s with
          current :=
            if s.accumulated_data.getD 6 0 = 0x31
            then -((be16 s.accumulated_data 7 : ℚ) / 100)
            else (be16 s.accumulated_data 7 : ℚ) / 100
          battery_state :=
            if s.accumulated_data.getD 6 0 = 0x31 then .DISCHARGING
            else if s.accumulated_data.getD 6 0 = 0x32 then .CHARGING
            else .UNKNOWN
          temperature1 := (s.accumulated_data.getD 14 0 : ℤ) - 40
          temperature2 := (s.accumulated_data.getD 15 0 : ℤ) - 40
          mosfet_temperature := (s.accumulated_data.getD 16 0 : ℤ) - 40
          ambient_temperature := (s.accumulated_data.getD 17 0 : ℤ) - 40
          successes_current_and_temperature := s.successes_current_and_temperature + 1
          accumulated_data := [] },
        some (.currentAndTemperature
          (if s.accumulated_data.getD 6 0 = 0x31
           then -((be16 s.accumulated_data 7 : ℚ) / 100)
           else (be16 s.accumulated_data 7 : ℚ) / 100)
          ((s.accumulated_data.getD 14 0 : ℤ) - 40)
          ((s.accumulated_data.getD 15 0 : ℤ) - 40)
          ((s.accumulated_data.getD 16 0 : ℤ) - 40)
          ((s.accumulated_data.getD 17 0 : ℤ) - 40))) := by
  have h7 := read_be16_pair s.accumulated_data 7 (by omega)
  have h6 := getElem?_eq_some_getD s.accumulated_data 6 (by omega)
  have h14 := getElem?_eq_some_getD s.accumulated_data 14 (by omega)
  have h15 := getElem?_eq_some_getD s.accumulated_data 15 (by omega)
  have h16 := getElem?_eq_some_getD s.accumulated_data 16 (by omega)
  have h17 := getElem?_eq_some_getD s.accumulated_data 17 (by omega)
  simp only [_parse_current_and_temperature, Option.bind_eq_bind, Option.pure_def,
    List.get?_eq_getElem?, h7, h6, h14, h15, h16, h17, Option.some_bind]

lemma parse_battery_pack_info_eval (s : UT1300)
    (hlen : 52 < s.accumulated_data.length) :
    _parse_battery_pack_info s = some
      ({ s with
          cycle_count := s.accumulated_data.getD 6 0
          state_of_charge := s.accumulated_data.getD 7 0
          full_capacity := (((0x01 <<< 16) + be16 s.accumulated_data 21 : ℕ) : ℚ) / 1000
          remaining_capacity := (be16 s.accumulated_data 27 : ℚ) / 1000
          discharge_time_left := (be16 s.accumulated_data 30 : ℚ)
          charge_time_left := (be16 s.accumulated_data 33 : ℚ)
          total_voltage := (be16 s.accumulated_data 47 : ℚ) / 100
          max_cell_voltage := (be16 s.accumulated_data 49 : ℚ) / 1000
          min_cell_voltage := (be16 s.accumulated_data 51 : ℚ) / 1000
          successes_battery_pack_info := s.successes_battery_pack_info + 1
          accumulated_data := [] },
        some (.batteryPackInfo
          (s.accumulated_data.getD 6 0)
          (s.accumulated_data.getD 7 0)
          ((((0x01 <<< 16) + be16 s.accumulated_data 21 : ℕ) : ℚ) / 1000)
          ((be16 s.accumulated_data 27 : ℚ) / 1000)
          ((be16 s.accumulated_data 30 : ℚ))
          ((be16 s.accumulated_data 33 : ℚ))
          ((be16 s.accumulated_data 47 : ℚ) / 100)
          ((be16 s.accumulated_data 49 : ℚ) / 1000)
          ((be16 s.accumulated_data 51 : ℚ) / 1000))) := by
  have h6 := getElem?_eq_some_getD s.accumulated_data 6 (by omega)
  have h7 := getElem?_eq_some_getD s.accumulated_data 7 (by omega)
  have h21 := read_be16_pair s.accumulated_data 21 (by omega)
  have h27 := read_be16_pair s.accumulated_data 27 (by omega)
  have h30 := read_be16_pair s.accumulated_data 30 (by omega)
  have h33 := read_be16_pair s.accumulated_data 33 (by omega)
  have h47 := read_be16_pair s.accumulated_data 47 (by omega)
  have h49 := read_be16_pair s.accumulated_data 49 (by omega)
  have h51 := read_be16_pair s.accumulated_data 51 (by omega)
  simp only [_parse_battery_pack_info, Option.bind_eq_bind, Option.pure_def,
    List.get?_eq_getElem?, h6, h7, h21, h27, h30, h33, h47, h49, h51, Option.some_bind]

lemma parse_message_eval (s : UT1300) (h5 : 5 < s.accumulated_data.length) :
    _parse_message s =
      (if s.accumulated_data.getD 5 0 = 0x02 then _parse_cell_voltages s
       else if s.accumulated_data.getD 5 0 = 0x03 then _parse_current_and_temperature s
       else if s.accumulated_data.getD 5 0 = 0x04 then _parse_battery_pack_info s
       else some (s, none)) := by
  simp only [_parse_message, Option.bind_eq_bind, Option.pure_def, List.get?_eq_getElem?,
    getElem?_eq_some_getD s.accumulated_data 5 h5, Option.some_bind]

lemma parse_cell_voltages_shape {s s' : UT1300} {out : Option Record}
    (h : _parse_cell_voltages s = some (s', out)) :
    s'.accumulated_data = [] ∧
    s'.successes_cell_voltages = s.successes_cell_voltages + 1 ∧
    s'.successes_battery_pack_info = s.successes_battery_pack_info ∧
    s'.successes_current_and_temperature = s.successes_current_and_temperature ∧
    ∃ a b c d, out = some (Record.cellVoltages a b c d) := by
  simp only [_parse_cell_voltages, Option.bind_eq_bind, Option.pure_def,
    Option.bind_eq_some, Option.some.injEq, Prod.mk.injEq] at h
  obtain ⟨w9, h9, w11, h11, w13, h13, w15, h15, hs, hout⟩ := h
  subst hs
  exact ⟨rfl, rfl, rfl, rfl, _, _, _, _, hout.symm⟩

lemma parse_current_and_temperature_shape {s s' : UT1300} {out : Option Record}
    (h : _parse_current_and_temperature s = some (s', out)) :
    s'.accumulated_data = [] ∧
    s'.successes_cell_voltages = s.successes_cell_voltages ∧
    s'.successes_battery_pack_info = s.successes_battery_pack_info ∧
    s'.successes_current_and_temperature = s.successes_current_and_temperature + 1 ∧
    ∃ a t1 t2 tm ta, out = some (Record.currentAndTemperature a t1 t2 tm ta) := by
  simp only [_parse_current_and_temperature, Option.bind_eq_bind, Option.pure_def,
    Option.bind_eq_some, Option.some.injEq, Prod.mk.injEq] at h
  obtain ⟨w7, h7, b6, h6, b14, h14, b15, h15, b16, h16, b17, h17, hs, hout⟩ := h
  subst hs
  exact ⟨rfl, rfl, rfl, rfl, _, _, _, _, _, hout.symm⟩

lemma parse_battery_pack_info_shape {s s' : UT1300} {out : Option Record}
    (h : _parse_battery_pack_info s = some (s', out)) :
    s'.accumulated_data = [] ∧
    s'.successes_cell_voltages = s.successes_cell_voltages ∧
    s'.successes_battery_pack_info = s.successes_battery_pack_info + 1 ∧
    s'.successes_current_and_temperature = s.successes_current_and_temperature ∧
    ∃ a b c d e f g i j, out = some (Record.batteryPackInfo a b c d e f g i j) := by
  simp only [_parse_battery_pack_info, Option.bind_eq_bind, Option.pure_def,
    Option.bind_eq_some, Option.some.injEq, Prod.mk.injEq] at h
  obtain ⟨b6, h6, b7, h7, w21, h21, w27, h27, w30, h30, w33, h33, w47, h47,
    w49, h49, w51, h51, hs, hout⟩ := h
  subst hs
  exact ⟨rfl, rfl, rfl, rfl, _, _, _, _, _, _, _, _, _, hout.symm⟩

lemma check_and_parse_valid {s : UT1300} (h : _is_valid_message s.accumulated_data = true) :
    _check_and_parse s = _parse_message s := by
  unfold _check_and_parse
  rw [if_pos h]

lemma check_and_parse_invalid {s : UT1300}
    (h : _is_valid_message s.accumulated_data = false) :
    _check_and_parse s = some (s, none) := by
  unfold _check_and_parse
  rw [h]
  simp

lemma ingest_data_start {s : UT1300} {c : List ℕ} (h : _is_start_of_message c = true) :
    ingest_data s c = _check_and_parse { s with accumulated_data := c } := by
  unfold ingest_data ingest_buffer
  rw [h]
  simp

lemma ingest_data_continue {s : UT1300} {c : List ℕ} (h : _is_start_of_message c = false)
    (hbuf : s.accumulated_data ≠ []) :
    ingest_data s c =
      _check_and_parse { s with accumulated_data := s.accumulated_data ++ c } := by
  unfold ingest_data ingest_buffer
  rw [h]
  simp [List.isEmpty_eq_false.mpr hbuf]

lemma ingest_data_drop {s : UT1300} {c : List ℕ} (h : _is_start_of_message c = false)
    (hbuf : s.accumulated_data = []) :
    ingest_data s c = some (s, none) := by
  have he : { s with accumulated_data := s.accumulated_data } = s := rfl
  unfold ingest_data ingest_buffer
  rw [h]
  simp only [hbuf, List.isEmpty_nil, Bool.not_true, Bool.false_eq_true, if_false,
    Bool.false_eq_true, if_false]
  rw [← hbuf, he]
  apply check_and_parse_invalid
  rw [hbuf]
  decide

lemma ingest_data_counters {s : UT1300} {c : List ℕ} {s' : UT1300} {out : Option Record}
    (h : ingest_data s c = some (s', out)) :
    s'.successes_cell_voltages =
      s.successes_cell_voltages + out.toList.countP Record.isCellVoltages ∧
    s'.successes_battery_pack_info =
      s.successes_battery_pack_info + out.toList.countP Record.isBatteryPackInfo ∧
    s'.successes_current_and_temperature =
      s.successes_current_and_temperature + out.toList.countP Record.isCurrentAndTemperature := by
  rw [ingest_data] at h
  by_cases hv : _is_valid_message
      ({ s with accumulated_data := ingest_buffer s.accumulated_data c }).accumulated_data = true
  · rw [check_and_parse_valid hv] at h
    unfold _parse_message at h
    simp only [Option.bind_eq_bind, Option.bind_eq_some] at h
    obtain ⟨b5, hb5, h⟩ := h
    split at h
    · obtain ⟨-, e1, e2, e3, va, vb, vc, vd, rfl⟩ := parse_cell_voltages_shape h
      refine ⟨?_, ?_, ?_⟩ <;>
        simp_all [Record.isCellVoltages, Record.isBatteryPackInfo,
          Record.isCurrentAndTemperature]
    · split at h
      · obtain ⟨-, e1, e2, e3, va, t1, t2, tm, ta, rfl⟩ :=
          parse_current_and_temperature_shape h
        refine ⟨?_, ?_, ?_⟩ <;>
          simp_all [Record.isCellVoltages, Record.isBatteryPackInfo,
            Record.isCurrentAndTemperature]
      · split at h
        · obtain ⟨-, e1, e2, e3, va, vb, vc, vd, ve, vf, vg, vi, vj, rfl⟩ :=
            parse_battery_pack_info_shape h
          refine ⟨?_, ?_, ?_⟩ <;>
            simp_all [Record.isCellVoltages, Record.isBatteryPackInfo,
              Record.isCurrentAndTemperature]
        · simp only [Option.pure_def, Option.some.injEq, Prod.mk.injEq] at h
          obtain ⟨rfl, rfl⟩ := h.symm.imp Eq.symm Eq.symm
          simp
  · rw [check_and_parse_invalid (by simpa using hv)] at h
    simp only [Option.some.injEq, Prod.mk.injEq] at h
    obtain ⟨rfl, rfl⟩ := h.symm.imp Eq.symm Eq.symm
    simp

lemma run_chunks_continuation (cs : List (List ℕ)) :
    ∀ s : UT1300,
      (∀ c ∈ cs, _is_start_of_message c = false) →
      s.accumulated_data ≠ [] →
      (∀ k, k + 1 < cs.length →
        _is_valid_message (s.accumulated_data ++ (cs.take (k + 1)).flatten) = false) →
      cs ≠ [] →
      run_chunks s cs =
        _check_and_parse { s with accumulated_data := s.accumulated_data ++ cs.flatten } := by
  induction cs with
  | nil => intro s _ _ _ hne; exact absurd rfl hne
  | cons c cs2 ih =>
    intro s hstart hbuf hmid _
    cases cs2 with
    | nil =>
        rw [show run_chunks s [c] = ingest_data s c from rfl,
          ingest_data_continue (hstart c (by simp)) hbuf]
        simp
    | cons c2 cs3 =>
        have hval : _is_valid_message (s.accumulated_data ++ c) = false := by
          have h0 := hmid 0 (by simp)
          simpa using h0
        rw [show run_chunks s (c :: c2 :: cs3) =
              (ingest_data s c).bind (fun p => run_chunks p.1 (c2 :: cs3)) from rfl,
          ingest_data_continue (hstart c (by simp)) hbuf,
          check_and_parse_invalid hval, Option.some_bind]
        have ihh := ih { s with accumulated_data := s.accumulated_data ++ c }
          (fun x hx => hstart x (List.mem_cons_of_mem c hx))
          (by simp [List.append_eq_nil, hbuf])
          (by
            intro k hk
            have hm := hmid (k + 1) (by simp only [List.length_cons] at hk ⊢; omega)
            simpa [List.append_assoc] using hm)
          (by simp)
        rw [ihh]
        simp [List.append_assoc]

lemma run_chunks_no_start (cs : List (List ℕ)) :
    ∀ s : UT1300,
      (∀ c ∈ cs, _is_start_of_message c = false) →
      s.accumulated_data = [] →
      run_chunks s cs = some (s, none) := by
  induction cs with
  | nil => intro s _ _; rfl
  | cons c cs2 ih =>
    intro s hstart hbuf
    cases cs2 with
    | nil => exact ingest_data_drop (hstart c (by simp)) hbuf
    | cons c2 cs3 =>
        rw [show run_chunks s (c :: c2 :: cs3) =
            (ingest_data s c).bind (fun p => run_chunks p.1 (c2 :: cs3)) from rfl,
          ingest_data_drop (hstart c (by simp)) hbuf, Option.some_bind]
        exact ih s (fun x hx => hstart x (List.mem_cons_of_mem c hx)) hbuf

lemma run_trace_counters (chunks : List (List ℕ)) :
    ∀ (s s' : UT1300) (recs : List Record),
      run_trace s chunks = some (s', recs) →
      s'.successes_cell_voltages =
        s.successes_cell_voltages + recs.countP Record.isCellVoltages ∧
      s'.successes_battery_pack_info =
        s.successes_battery_pack_info + recs.countP Record.isBatteryPackInfo ∧
      s'.successes_current_and_temperature =
        s.successes_current_and_temperature + recs.countP Record.isCurrentAndTemperature := by
  induction chunks with
  | nil =>
      intro s s' recs h
      simp only [run_trace, Option.some.injEq, Prod.mk.injEq] at h
      obtain ⟨rfl, rfl⟩ := h.symm.imp Eq.symm Eq.symm
      simp
  | cons c cs ih =>
      intro s s' recs h
      rw [show run_trace s (c :: cs) =
          (ingest_data s c).bind
            (fun p => (run_trace p.1 cs).map fun q => (q.1, p.2.toList ++ q.2)) from rfl] at h
      simp only [Option.bind_eq_some, Option.map_eq_some'] at h
      obtain ⟨⟨s1, out⟩, hstep, ⟨s2, recs2⟩, htr, hq⟩ := h
      injection hq with hq1 hq2
      obtain ⟨a1, a2, a3⟩ := ingest_data_counters hstep
      obtain ⟨b1, b2, b3⟩ := ih s1 s2 recs2 htr
      subst hq1 hq2
      refine ⟨?_, ?_, ?_⟩ <;> simp_all [List.countP_append] <;> omega

lemma getD_of_get?_some {l : List ℕ} {i v : ℕ} (h : l.get? i = some v) :
    l.getD i 0 = v := by
  rw [List.getD_eq_getD_get?, h]
  rfl

lemma read_be16_some_eq {b : List ℕ} {i w : ℕ} (h : read_be16 b i (i + 1) = some w) :
    w = be16 b i := by
  simp only [read_be16, Option.bind_eq_bind, Option.bind_eq_some, Option.pure_def,
    Option.some.injEq] at h
  obtain ⟨hi, hhi, lo, hlo, hw⟩ := h
  rw [be16, getD_of_get?_some hhi, getD_of_get?_some hlo, hw]

lemma length_of_valid {b : List ℕ} (h : _is_valid_message b = true) : 8 ≤ b.length := by
  unfold _is_valid_message _is_message_min_length at h
  simp only [Bool.and_eq_true, decide_eq_true_eq] at h
  exact h.1.1

/-- An 18-byte chunk whose start markers are correct and whose last byte is
0xf5, but whose length byte (0xff at offset 3) fails the check
`buffer[3] + 4 == len(buffer)` (255 + 4 is not 18). -/
def frame18 : List ℕ :=
  [0xea, 0xd1, 0x01, 0xff, 0xff, 0x02, 0x00, 0x00, 0x00,
   0x0f, 0xa0, 0x0f, 0x9c, 0x0f, 0x88, 0x0f, 0x78, 0xf5]

/-- The 22-byte cell-voltage frame of the concrete spec scenario: length
byte 0x12 (18 + 4 = 22), discriminant 0x02, bytes 9..16 holding the four
big-endian voltages 4000, 3996, 3976, 3960 (thousandths of a volt). -/
def frame22 : List ℕ :=
  [0xea, 0xd1, 0x01, 0x12, 0xff, 0x02, 0x00, 0x00, 0x00,
   0x0f, 0xa0, 0x0f, 0x9c, 0x0f, 0x88, 0x0f, 0x78,
   0x00, 0x00, 0x00, 0x00, 0xf5]

/-- A 19-byte frame with discriminant 0x03, state byte 0x31 (discharging),
current bytes (7,8) = 0x00 0x64, and temperature bytes 0x3c 0x3d 0x3e 0x40
at offsets 14..17. -/
def frame19 : List ℕ :=
  [0xea, 0xd1, 0x01, 0x0f, 0xff, 0x03, 0x31, 0x00, 0x64,
   0x00, 0x00, 0x00, 0x00, 0x00, 0x3c, 0x3d, 0x3e, 0x40, 0xf5]

/-- A structurally complete 8-byte frame (length byte 0x04, terminator
0xf5) whose discriminant 0x05 is none of the recognized values. -/
def frameX : List ℕ := [0xea, 0xd1, 0x01, 0x04, 0xff, 0x05, 0x00, 0xf5]

/-- An 8-byte request echo with discriminant 0x04. -/
def framePack : List ℕ := [0xea, 0xd1, 0x01, 0x04, 0xff, 0x04, 0xff, 0xf5]

/-- C1: the spec demands that a buffer with correct start markers ending in
0xf5 whose length byte fails `buffer[3] + 4 == len(buffer)` never produces
a decoded record.  The code violates this: `_is_valid_message` names the
bound method `_is_correct_length` without calling it, so the conjunct is
always truthy and the length check is dead.  The 18-byte input below has
correct markers, terminator 0xf5, a failing length check, and still
decodes to a full cell-voltage record. -/
theorem C1_dead_length_check :
    _is_start_of_message frame18 = true ∧
    frame18.getLastD 0 = 0xf5 ∧
    _is_correct_length frame18 = false ∧
    ingest_data UT1300.init frame18 =
      some ({ UT1300.init with
          cell1_voltage := 4000 / 1000
          cell2_voltage := 3996 / 1000
          cell3_voltage := 3976 / 1000
          cell4_voltage := 3960 / 1000
          successes_cell_voltages := 1
          accumulated_data := [] },
        some (.cellVoltages (4000 / 1000) (3996 / 1000) (3976 / 1000) (3960 / 1000))) := by
  refine ⟨by decide, by decide, by decide, ?_⟩
  rw [ingest_data_start (by decide), check_and_parse_valid (by decide),
    parse_message_eval _ (by decide), if_pos (by decide),
    parse_cell_voltages_eval _ (by decide)]
  norm_num [be16, frame18, UT1300.init, Nat.shiftLeft_eq]

/-- C3: the spec demands that a frame passing the completeness check but
shorter than the offsets its discriminant requires fail as a decode error
with no out-of-bounds access and no crash.  The code violates this: the
chunks EA D1 01 04 FF 02 and F9 F5 accumulate into an 8-byte frame with
discriminant 0x02, and `_parse_cell_voltages` then indexes byte 9 of the
8-byte buffer, raising an uncaught IndexError (modelled by `none`). -/
theorem C3_short_frame_crash :
    run_chunks UT1300.init
      [[0xea, 0xd1, 0x01, 0x04, 0xff, 0x02], [0xf9, 0xf5]] = none := by
  decide

/-- C4 counterexample: the claim says that after `ingest_data` processes
any buffer passing the completeness check — including one with an
unrecognized discriminant — the buffer is empty again.  On the complete
8-byte frame with discriminant 0x05 the code yields no record and leaves
the whole frame in the buffer. -/
theorem C4_counterexample :
    _is_valid_message (ingest_buffer UT1300.init.accumulated_data frameX) = true ∧
    ingest_data UT1300.init frameX =
      some ({ UT1300.init with accumulated_data := frameX }, none) ∧
    frameX ≠ [] := by
  decide

/-- C4 (amended): after `ingest_data` processes a buffer that passes the
completeness check, the buffer is reset to empty whenever a record is
produced; but when the discriminant is none of 0x02, 0x03, 0x04, no record
is produced and the buffer retains the complete frame instead of being
reset. -/
theorem C4_buffer_reset (s : UT1300) (c : List ℕ) (s' : UT1300) (out : Option Record)
    (h : ingest_data s c = some (s', out))
    (hval : _is_valid_message (ingest_buffer s.accumulated_data c) = true) :
    (out.isSome = true → s'.accumulated_data = []) ∧
    ((ingest_buffer s.accumulated_data c).getD 5 0 ∉ ([0x02, 0x03, 0x04] : List ℕ) →
      out = none ∧ s'.accumulated_data = ingest_buffer s.accumulated_data c) := by
  rw [ingest_data, check_and_parse_valid (by simpa using hval)] at h
  have hlen5 : 5 < (ingest_buffer s.accumulated_data c).length :=
    lt_of_lt_of_le (by omega) (length_of_valid hval)
  rw [parse_message_eval _ hlen5] at h
  dsimp only at h
  by_cases h2 : (ingest_buffer s.accumulated_data c).getD 5 0 = 0x02
  · rw [if_pos h2] at h
    exact ⟨fun _ => (parse_cell_voltages_shape h).1,
      fun hmem => absurd (by rw [h2]; decide) hmem⟩
  · rw [if_neg h2] at h
    by_cases h3 : (ingest_buffer s.accumulated_data c).getD 5 0 = 0x03
    · rw [if_pos h3] at h
      exact ⟨fun _ => (parse_current_and_temperature_shape h).1,
        fun hmem => absurd (by rw [h3]; decide) hmem⟩
    · rw [if_neg h3] at h
      by_cases h4 : (ingest_buffer s.accumulated_data c).getD 5 0 = 0x04
      · rw [if_pos h4] at h
        exact ⟨fun _ => (parse_battery_pack_info_shape h).1,
          fun hmem => absurd (by rw [h4]; decide) hmem⟩
      · rw [if_neg h4] at h
        simp only [Option.some.injEq, Prod.mk.injEq] at h
        obtain ⟨h5, h6⟩ := h
        subst h5 h6
        exact ⟨by simp, fun _ => ⟨rfl, rfl⟩⟩

/-- C4 witness: the amended claim at the unrecognized-discriminant frame
0x05: no record and the buffer keeps the frame. -/
theorem C4_buffer_reset_witness :
    (none : Option Record) = none ∧
    ({ UT1300.init with accumulated_data := frameX }).accumulated_data =
      ingest_buffer UT1300.init.accumulated_data frameX :=
  (C4_buffer_reset UT1300.init frameX { UT1300.init with accumulated_data := frameX }
    none (by decide) (by decide)).2 (by decide)

/-- C5: a complete frame with discriminant 0x02 and length at least 17
decodes to the four cell voltages, each the big-endian 16-bit value at
byte pairs (9,10), (11,12), (13,14), (15,16) divided by 1000. -/
theorem C5_cell_voltages (s : UT1300)
    (hval : _is_valid_message s.accumulated_data = true)
    (hdisc : s.accumulated_data.getD 5 0 = 0x02)
    (hlen : 17 ≤ s.accumulated_data.length) :
    _parse_message s = some
      ({ s with
          cell1_voltage := (be16 s.accumulated_data 9 : ℚ) / 1000
          cell2_voltage := (be16 s.accumulated_data 11 : ℚ) / 1000
          cell3_voltage := (be16 s.accumulated_data 13 : ℚ) / 1000
          cell4_voltage := (be16 s.accumulated_data 15 : ℚ) / 1000
          successes_cell_voltages := s.successes_cell_voltages + 1
          accumulated_data := [] },
        some (.cellVoltages
          ((be16 s.accumulated_data 9 : ℚ) / 1000)
          ((be16 s.accumulated_data 11 : ℚ) / 1000)
          ((be16 s.accumulated_data 13 : ℚ) / 1000)
          ((be16 s.accumulated_data 15 : ℚ) / 1000))) := by
  rw [parse_message_eval s (by omega), if_pos hdisc]
  exact parse_cell_voltages_eval s (by omega)

/-- C5 witness: the 22-byte spec frame decodes to 4.000, 3.996, 3.976,
3.960 volts. -/
theorem C5_cell_voltages_witness :
    _parse_message { UT1300.init with accumulated_data := frame22 } = some
      ({ UT1300.init with
          cell1_voltage := 4000 / 1000
          cell2_voltage := 3996 / 1000
          cell3_voltage := 3976 / 1000
          cell4_voltage := 3960 / 1000
          successes_cell_voltages := 1
          accumulated_data := [] },
        some (.cellVoltages (4000 / 1000) (3996 / 1000) (3976 / 1000) (3960 / 1000))) := by
  rw [C5_cell_voltages { UT1300.init with accumulated_data := frame22 }
    (by decide) (by decide) (by decide)]
  norm_num [be16, frame22, UT1300.init, Nat.shiftLeft_eq]

/-- C8: a chunk of length greater than 2 starting with 0xea 0xd1 replaces
the buffer with exactly that chunk, and the whole result of `ingest_data`
is independent of the previously accumulated buffer. -/
theorem C8_start_replaces (s : UT1300) (c : List ℕ)
    (h : _is_start_of_message c = true) :
    ingest_buffer s.accumulated_data c = c ∧
    ingest_data s c = ingest_data { s with accumulated_data := [] } c := by
  refine ⟨?_, ?_⟩
  · unfold ingest_buffer
    rw [h]
    simp
  · rw [ingest_data_start h, ingest_data_start h]

/-- C8 witness: a start-of-frame chunk wipes a junk buffer. -/
theorem C8_start_replaces_witness :
    ingest_buffer ({ UT1300.init with
        accumulated_data := [1, 2, 3] }).accumulated_data frame22 = frame22 ∧
    ingest_data { UT1300.init with accumulated_data := [1, 2, 3] } frame22 =
      ingest_data { { UT1300.init with accumulated_data := [1, 2, 3] } with
        accumulated_data := [] } frame22 :=
  C8_start_replaces { UT1300.init with accumulated_data := [1, 2, 3] } frame22 (by decide)

/-- C9: a chunk that is not a start-of-frame arriving on an empty buffer
leaves the entire session state unchanged and produces no output. -/
theorem C9_non_start_on_empty (s : UT1300) (c : List ℕ)
    (hst : _is_start_of_message c = false) (hbuf : s.accumulated_data = []) :
    ingest_data s c = some (s, none) :=
  ingest_data_drop hst hbuf

/-- C9 witness: a stray two-byte chunk on a fresh session is dropped. -/
theorem C9_non_start_on_empty_witness :
    ingest_data UT1300.init [0x12, 0x34] = some (UT1300.init, none) :=
  C9_non_start_on_empty UT1300.init [0x12, 0x34] (by decide) rfl

lemma is_start_of_message_append {c1 rest : List ℕ}
    (h : _is_start_of_message c1 = true) :
    _is_start_of_message (c1 ++ rest) = true := by
  unfold _is_start_of_message at h ⊢
  simp only [Bool.and_eq_true, decide_eq_true_eq, beq_iff_eq] at h ⊢
  obtain ⟨⟨hl, h0⟩, h1⟩ := h
  refine ⟨⟨?_, ?_⟩, ?_⟩
  · simp only [List.length_append]
    omega
  · rw [List.getD_append _ _ _ _ (by omega)]
    exact h0
  · rw [List.getD_append _ _ _ _ (by omega)]
    exact h1

lemma is_start_of_message_append_false {c1 rest : List ℕ} (hlen : 3 ≤ c1.length)
    (h : _is_start_of_message c1 = false) :
    _is_start_of_message (c1 ++ rest) = false := by
  unfold _is_start_of_message at h ⊢
  rw [List.getD_append _ _ _ _ (by omega), List.getD_append _ _ _ _ (by omega)]
  have hl : decide (c1.length > 2) = true := by
    simp only [decide_eq_true_eq]
    omega
  have hl2 : decide ((c1 ++ rest).length > 2) = true := by
    simp only [decide_eq_true_eq, List.length_append]
    omega
  rw [hl] at h
  rw [hl2]
  simpa using h

/-- C2 counterexample: `frame22` is a valid frame in the sense of the
claim (length at least 8, last byte 0xf5, `f[3] + 4 = len f`), yet the
two-chunk in-order partition with first chunk `[0xea, 0xd1]` delivered to
a fresh session produces no record on its final step, while single-chunk
delivery decodes a record: the first chunk has length 2, is not treated as
a start-of-frame, and is dropped on the empty buffer. -/
theorem C2_counterexample :
    8 ≤ frame22.length ∧
    frame22.getLastD 0 = 0xf5 ∧
    frame22.getD 3 0 + 4 = frame22.length ∧
    [0xea, 0xd1] ++ frame22.drop 2 = frame22 ∧
    run_chunks UT1300.init [[0xea, 0xd1], frame22.drop 2] =
      some (UT1300.init, none) ∧
    (ingest_data UT1300.init frame22).map (fun p => p.2.isSome) = some true := by
  refine ⟨by decide, by decide, by decide, by decide, by decide, ?_⟩
  decide

/-- C2 (amended): fragmentation transparency holds for every frame and
every in-order partition into non-empty chunks provided that the first
chunk is at least 3 bytes, no later chunk itself looks like a
start-of-frame, and no cumulative chunk-boundary proper part of the frame
already passes the (length-8, trailing-0xf5) completeness check: then
delivering the chunks from an empty buffer ends in exactly the same state
and final output as delivering the frame as a single chunk. -/
theorem C2_fragmentation (s : UT1300) (chunks : List (List ℕ)) (c1 : List ℕ)
    (cs : List (List ℕ))
    (hchunks : chunks = c1 :: cs)
    (hne : ∀ c ∈ chunks, c ≠ [])
    (hc1 : 3 ≤ c1.length)
    (hrest : ∀ c ∈ cs, _is_start_of_message c = false)
    (hmid : ∀ k, k + 1 < chunks.length →
      _is_valid_message ((chunks.take (k + 1)).flatten) = false)
    (hs : s.accumulated_data = []) :
    run_chunks s chunks = ingest_data s chunks.flatten := by
  subst hchunks
  cases hst : _is_start_of_message c1 with
  | true =>
      cases cs with
      | nil =>
          show ingest_data s c1 = ingest_data s ([c1].flatten)
          simp
      | cons c2 cs2 =>
          have hc1inv : _is_valid_message c1 = false := by
            have h0 := hmid 0 (by simp)
            simpa using h0
          rw [show run_chunks s (c1 :: c2 :: cs2) =
              (ingest_data s c1).bind (fun p => run_chunks p.1 (c2 :: cs2)) from rfl,
            ingest_data_start hst, check_and_parse_invalid (by simpa using hc1inv)]
          simp only [Option.some_bind]
          rw [run_chunks_continuation (c2 :: cs2) { s with accumulated_data := c1 }
            hrest
            (fun hemp => hne c1 (List.mem_cons_self c1 _) hemp)
            (by
              intro k hk
              have hm := hmid (k + 1) (by simp only [List.length_cons] at hk ⊢; omega)
              simpa using hm)
            (by simp)]
          rw [ingest_data_start
            (by rw [List.flatten_cons]; exact is_start_of_message_append hst)]
          rfl
  | false =>
      rw [run_chunks_no_start (c1 :: cs) s
        (by
          intro c hc
          rcases List.mem_cons.mp hc with rfl | hmem
          · exact hst
          · exact hrest c hmem)
        hs]
      rw [ingest_data_drop
        (by rw [List.flatten_cons]; exact is_start_of_message_append_false hc1 hst)
        hs]

/-- C2 witness: the amended transparency at the partition of `frame22`
into its first three bytes and the rest. -/
theorem C2_fragmentation_witness :
    run_chunks UT1300.init [[0xea, 0xd1, 0x01], frame22.drop 3] =
      ingest_data UT1300.init frame22 := by
  have h := C2_fragmentation UT1300.init [[0xea, 0xd1, 0x01], frame22.drop 3]
    [0xea, 0xd1, 0x01] [frame22.drop 3] rfl (by decide) (by decide) (by decide)
    (by
      intro k hk
      simp only [List.length_cons, List.length_nil] at hk
      have hk0 : k = 0 := by omega
      subst hk0
      decide)
    rfl
  rw [h, show ([[0xea, 0xd1, 0x01], frame22.drop 3] : List (List ℕ)).flatten = frame22
    from by decide]

/-- C6: a complete frame of length at least 18 with discriminant 0x03
decodes so that byte 6 maps to the battery state (0x31 discharging, 0x32
charging, otherwise unknown), the current has magnitude equal to the
big-endian 16-bit value at bytes (7,8) divided by 100, and the four
temperatures are the bytes at offsets 14..17 each minus 40, in Celsius. -/
theorem C6_state_current_temps (s : UT1300)
    (hval : _is_valid_message s.accumulated_data = true)
    (hdisc : s.accumulated_data.getD 5 0 = 0x03)
    (hlen : 18 ≤ s.accumulated_data.length) :
    ∃ s' : UT1300,
      _parse_message s = some (s', some (.currentAndTemperature s'.current
        s'.temperature1 s'.temperature2 s'.mosfet_temperature
        s'.ambient_temperature)) ∧
      s'.battery_state = (if s.accumulated_data.getD 6 0 = 0x31 then .DISCHARGING
        else if s.accumulated_data.getD 6 0 = 0x32 then .CHARGING else .UNKNOWN) ∧
      |s'.current| = (be16 s.accumulated_data 7 : ℚ) / 100 ∧
      s'.temperature1 = (s.accumulated_data.getD 14 0 : ℤ) - 40 ∧
      s'.temperature2 = (s.accumulated_data.getD 15 0 : ℤ) - 40 ∧
      s'.mosfet_temperature = (s.accumulated_data.getD 16 0 : ℤ) - 40 ∧
      s'.ambient_temperature = (s.accumulated_data.getD 17 0 : ℤ) - 40 := by
  rw [parse_message_eval s (by omega), if_neg (by rw [hdisc]; decide), if_pos hdisc,
    parse_current_and_temperature_eval s (by omega)]
  refine ⟨_, rfl, rfl, ?_, rfl, rfl, rfl, rfl⟩
  dsimp only
  split
  · rw [abs_neg, abs_of_nonneg (by positivity)]
  · rw [abs_of_nonneg (by positivity)]

/-- C6 witness: the 19-byte frame with state byte 0x31 and current bytes
0x00 0x64 decodes to state discharging and a current of magnitude 1. -/
theorem C6_state_current_temps_witness :
    ∃ s' : UT1300,
      _parse_message { UT1300.init with accumulated_data := frame19 } =
        some (s', some (.currentAndTemperature s'.current s'.temperature1
          s'.temperature2 s'.mosfet_temperature s'.ambient_temperature)) ∧
      s'.battery_state = UT1300.State.DISCHARGING ∧
      |s'.current| = 100 / 100 ∧
      s'.temperature1 = 20 ∧ s'.temperature2 = 21 ∧
      s'.mosfet_temperature = 22 ∧ s'.ambient_temperature = 24 := by
  obtain ⟨s', h1, h2, h3, h4, h5, h6, h7⟩ :=
    C6_state_current_temps { UT1300.init with accumulated_data := frame19 }
      (by decide) (by decide) (by decide)
  refine ⟨s', h1, ?_, ?_, ?_, ?_, ?_, ?_⟩
  · rw [h2]; decide
  · rw [h3]; norm_num [be16, frame19, Nat.shiftLeft_eq]
  · rw [h4]; decide
  · rw [h5]; decide
  · rw [h6]; decide
  · rw [h7]; decide

/-- C7: over any delivered sequence of chunks, each success counter ends
exactly at its starting value plus the number of records of its type
produced along the way; in particular each counter is monotonically
non-decreasing and unaffected by decodes of the other types. -/
theorem C7_counters (s : UT1300) (chunks : List (List ℕ)) (s' : UT1300)
    (recs : List Record)
    (h : run_trace s chunks = some (s', recs)) :
    s'.successes_cell_voltages =
      s.successes_cell_voltages + recs.countP Record.isCellVoltages ∧
    s'.successes_battery_pack_info =
      s.successes_battery_pack_info + recs.countP Record.isBatteryPackInfo ∧
    s'.successes_current_and_temperature =
      s.successes_current_and_temperature + recs.countP Record.isCurrentAndTemperature :=
  run_trace_counters chunks s s' recs h

/-- The session state after decoding `frame22` on a fresh session. -/
def cvState : UT1300 :=
  { UT1300.init with
      cell1_voltage := 4000 / 1000
      cell2_voltage := 3996 / 1000
      cell3_voltage := 3976 / 1000
      cell4_voltage := 3960 / 1000
      successes_cell_voltages := 1
      accumulated_data := [] }

/-- The record decoded from `frame22`. -/
def cvRecord : Record :=
  .cellVoltages (4000 / 1000) (3996 / 1000) (3976 / 1000) (3960 / 1000)

/-- C7 witness: one cell-voltage decode on a fresh session brings the
cell_voltages counter from 0 to 1 and leaves the other two at 0. -/
theorem C7_counters_witness :
    cvState.successes_cell_voltages =
      UT1300.init.successes_cell_voltages +
        ([cvRecord].countP Record.isCellVoltages) ∧
    cvState.successes_battery_pack_info =
      UT1300.init.successes_battery_pack_info +
        ([cvRecord].countP Record.isBatteryPackInfo) ∧
    cvState.successes_current_and_temperature =
      UT1300.init.successes_current_and_temperature +
        ([cvRecord].countP Record.isCurrentAndTemperature) := by
  have hstep : ingest_data UT1300.init frame22 = some (cvState, some cvRecord) := by
    rw [ingest_data_start (by decide), check_and_parse_valid (by decide),
      parse_message_eval _ (by decide), if_pos (by decide),
      parse_cell_voltages_eval _ (by decide)]
    norm_num [be16, frame22, UT1300.init, cvState, cvRecord, Nat.shiftLeft_eq]
  have htrace : run_trace UT1300.init [frame22] = some (cvState, [cvRecord]) := by
    rw [show run_trace UT1300.init [frame22] = (ingest_data UT1300.init frame22).bind
        (fun p => (run_trace p.1 []).map fun q => (q.1, p.2.toList ++ q.2)) from rfl,
      hstep]
    rfl
  exact C7_counters UT1300.init [frame22] cvState [cvRecord] htrace

/-- C10: the dispatcher sends discriminant 0x03 to the
current/state/temperature routine and 0x04 to the battery-pack-info
routine, and the current is negated exactly when the state byte at offset
6 is 0x31 (discharging): the returned current equals minus or plus the
big-endian value at (7,8) divided by 100 accordingly. -/
theorem C10_dispatch_and_sign (s : UT1300) :
    (s.accumulated_data.get? 5 = some 0x03 →
      _parse_message s = _parse_current_and_temperature s) ∧
    (s.accumulated_data.get? 5 = some 0x04 →
      _parse_message s = _parse_battery_pack_info s) ∧
    (∀ (s' : UT1300) (cur : ℚ) (t1 t2 tm ta : ℤ),
      _parse_current_and_temperature s =
        some (s', some (.currentAndTemperature cur t1 t2 tm ta)) →
      cur = (if s.accumulated_data.getD 6 0 = 0x31 then -1 else 1) *
        ((be16 s.accumulated_data 7 : ℚ) / 100)) := by
  refine ⟨?_, ?_, ?_⟩
  · intro h5
    simp only [_parse_message, Option.bind_eq_bind, h5, Option.some_bind]
    norm_num
  · intro h5
    simp only [_parse_message, Option.bind_eq_bind, h5, Option.some_bind]
    norm_num
  · intro s' cur t1 t2 tm ta h
    simp only [_parse_current_and_temperature, Option.bind_eq_bind, Option.pure_def,
      Option.bind_eq_some, Option.some.injEq, Prod.mk.injEq,
      Record.currentAndTemperature.injEq] at h
    obtain ⟨w7, h7, b6, h6, b14, h14, b15, h15, b16, h16, b17, h17, hs,
      hcur, ht1, ht2, htm, hta⟩ := h
    subst hcur
    rw [getD_of_get?_some h6, ← read_be16_some_eq h7]
    split <;> ring

/-- C10 witness: a frame with discriminant 0x03 dispatches to the
current/temperature routine and one with 0x04 to battery-pack-info. -/
theorem C10_dispatch_and_sign_witness :
    _parse_message { UT1300.init with accumulated_data := frame19 } =
      _parse_current_and_temperature { UT1300.init with accumulated_data := frame19 } ∧
    _parse_message { UT1300.init with accumulated_data := framePack } =
      _parse_battery_pack_info { UT1300.init with accumulated_data := framePack } :=
  ⟨(C10_dispatch_and_sign _).1 (by decide),
   (C10_dispatch_and_sign _).2.1 (by decide)⟩

end Bmv
